import Mathlib

/-!
# lingo: the `review` command

A shallow embedding of `app/commands/review.go` (`reviewCMD`, `noCommitErr`,
`noCommitErrMsg`, `vcsGit`, `vcsP4`) and of `vcs/mock/repo.go` (the mock
`Repo`).

`reviewCMD` is a straight-line orchestration of collaborators that live in
other packages (`os`, `vcs`, `review`, `config`, `util`, `errors`, `strings`).
Each collaborator is taken as a parameter: the record `Env` holds one field
per function called, the record `Repo` one field per method of the
repository interface, the record `PlatformConfig` one field per method of the
platform configuration. A Go result `(v, err)` is the pair `(v, err)` with
`err : Option GoError`, `none` standing for `nil`.

Every collaborator call that `reviewCMD` performs is recorded, in program
order, in the `calls` field of the result, so that "step X is not performed"
is a statement about that list.
-/

namespace lingo

/-! ## Errors and strings -/

/-- Go `error` values, observed through their `Error()` text. `mk` is an error
value created with a message (`errors.New`, or any backend error), `traced`
is the wrapper that `errors.Trace` puts around a non-nil error. -/
inductive GoError where
  | mk (msg : String)
  | traced (prev : GoError)
  deriving DecidableEq, Repr

/-- The method `Error()`: a trace wrapper carries no message of its own and
shows the message of the error it wraps. -/
def GoError.Error : GoError → String
  | .mk msg => msg
  | .traced prev => prev.Error

namespace errors

/-- The call `errors.New(msg)`. -/
def New (msg : String) : GoError := GoError.mk msg

/-- The call `errors.Trace(err)`: `nil` stays `nil`, any other error is wrapped. -/
def Trace : Option GoError → Option GoError
  | none => none
  | some err => some (GoError.traced err)

end errors

namespace strings

/-- The call `strings.HasPrefix` on character lists. -/
def hasPrefixList : List Char → List Char → Bool
  | _, [] => true
  | [], _ :: _ => false
  | c :: s, d :: p => c == d && hasPrefixList s p

/-- Substring search on character lists: does `sub` occur at some offset of `s`. -/
def containsList : List Char → List Char → Bool
  | [], sub => hasPrefixList [] sub
  | c :: s, sub => hasPrefixList (c :: s) sub || containsList s sub

/-- The call `strings.Contains(s, substr)`. -/
def Contains (s substr : String) : Bool := containsList s.data substr.data

end strings

/-! ## Data passed between the collaborators -/

/-- The value `vcs.Type` returned by `vcs.New`; only passed on by `reviewCMD`. -/
structure VcsType where
  tag : Nat
  deriving DecidableEq, Repr

/-- The value `flow.Issue`; only collected and passed on by `reviewCMD`. -/
structure Issue where
  name : String
  deriving DecidableEq, Repr

/-- A Go channel as handed from `review.RequestReview` to
`review.ConfirmIssues`: the values its producer sends before closing it. -/
structure Chan (α : Type) where
  items : List α
  deriving DecidableEq, Repr

/-- The `OwnerOrDepot` field of `flow.ReviewRequest`: `ReviewRequest_Owner` or
`ReviewRequest_Depot`. -/
inductive OwnerOrDepot where
  | Owner (owner : String)
  | Depot (depot : String)
  deriving DecidableEq, Repr

/-- The fields of `flow.ReviewRequest` that `reviewCMD` fills in. -/
structure ReviewRequest where
  Host : String
  Hostname : String
  OwnerOrDepot : OwnerOrDepot
  Repo : String
  Sha : String
  Patches : List String
  Vcs : String
  Dir : String
  Dotlingo : String
  deriving DecidableEq, Repr

/-- Go `string`, under a name that the method names of `cli.Context` leave free. -/
abbrev GoString := String

/-- Go `bool`, under a name that the method names of `cli.Context` leave free. -/
abbrev GoBool := Bool

/-- The flags of `cli.Context` as `reviewCMD` reads them: the methods `IsSet`,
`String` and `Bool`, each applied to a flag name. -/
structure Context where
  IsSet : GoString → GoBool
  String : GoString → GoString
  Bool : GoString → GoBool

/-- The repository interface: one field per method of `vcs/mock/repo.go`. -/
structure Repo where
  Sync : Option GoError
  BuildQueries : List String × Option GoError
  ReadFile : String → String → String × Option GoError
  CurrentCommitId : String × Option GoError
  Patches : List String × Option GoError
  SetRemote : String → String → String × String × Option GoError
  CreateRemote : String → Option GoError
  Exists : String → Bool × Option GoError
  OwnerAndNameFromRemote : String × String × Option GoError
  AssertNotTracked : Option GoError
  WorkingDir : String × Option GoError

/-- The value returned by `config.Platform()`: one field per method called. -/
structure PlatformConfig where
  GitServerAddr : String × Option GoError
  GitRemoteName : String × Option GoError
  P4ServerAddr : String × Option GoError
  P4RemoteName : String × Option GoError
  P4RemoteDepotName : String × Option GoError

/-- The functions of other packages that `reviewCMD` calls. -/
structure Env where
  Chdir : String → Option GoError
  ReadDotLingo : Context → String × Option GoError
  New : VcsType × Repo × Option GoError
  InitRepo : VcsType → Repo → Option GoError
  SyncRepo : VcsType → Repo → Option GoError
  Platform : PlatformConfig × Option GoError
  TypeToString : VcsType → String × Option GoError
  RequestReview : ReviewRequest → Chan Issue × Chan GoError × Option GoError
  ConfirmIssues : Chan Issue → Chan GoError → Bool → String → List Issue × Option GoError
  MakeReport : List Issue → String → String → String × Option GoError

/-- One collaborator call performed by `reviewCMD`. -/
inductive Call where
  | Debugw (msg : String)
  | LoggerSync
  | Chdir (dir : String)
  | ReadDotLingo
  | New
  | InitRepo
  | SyncRepo
  | OwnerAndNameFromRemote
  | CurrentCommitId
  | Patches
  | WorkingDir
  | Platform
  | TypeToString
  | GitServerAddr
  | GitRemoteName
  | P4ServerAddr
  | P4RemoteName
  | P4RemoteDepotName
  | RequestReview (req : ReviewRequest)
  | ConfirmIssues (autoConfirm : Bool) (output : String)
  | MakeReport (issues : List Issue) (format : String) (output : String)
  deriving DecidableEq, Repr

/-- What a run of `reviewCMD` returns, `(msg, err)`, and the calls it made. -/
structure Result where
  msg : String
  err : Option GoError
  calls : List Call
  deriving DecidableEq, Repr

/-! ## `vcs/mock/repo.go` -/

namespace mock

/-- The method `CreateRemote` of the mock repository. -/
def CreateRemote (name : String) : Option GoError :=
  if name = "existingPkg" then some (errors.New "already exists")
  else if name = "existingPkg-1105" then some (errors.New "already exists")
  else if name = "existing-Pkg" then some (errors.New "already exists")
  else if name = "existing-Pkg-0" then some (errors.New "already exists")
  else none

/-- The mock repository: every method returns zero values, `CreateRemote` apart. -/
def Repo : lingo.Repo where
  Sync := none
  BuildQueries := ([], none)
  ReadFile := fun _ _ => ("", none)
  CurrentCommitId := ("", none)
  Patches := ([], none)
  SetRemote := fun _ _ => ("", "", none)
  CreateRemote := CreateRemote
  Exists := fun _ => (false, none)
  OwnerAndNameFromRemote := ("", "", none)
  AssertNotTracked := none
  WorkingDir := ("", none)

end mock

/-! ## `app/commands/review.go` -/

/-- The constant `vcsGit`. -/
def vcsGit : String := "git"

/-- The constant `vcsP4`. -/
def vcsP4 : String := "perforce"

/-- The constant `noCommitErrMsg`: the guidance shown for a repository without
a commit. -/
def noCommitErrMsg : String :=
  "This looks like a new repository. Please make an initial commit before running `lingo review`. This is only required for the initial commit, subsequent changes to your repo will be picked up by lingo without committing."

/-- The function `noCommitErr`: the text of `err` contains git's message for a
`HEAD` that does not resolve. -/
def noCommitErr (err : GoError) : Bool :=
  strings.Contains err.Error "ambiguous argument 'HEAD'"

/-- The calls of lines 101 to 105: `os.Chdir(dir)` unless `dir` is empty. -/
def chdirCalls (dir : String) : List Call :=
  if dir ≠ "" then [Call.Chdir dir] else []

/-- Lines 115 to 121, on the result `err` of `vcs.InitRepo`: the error that
makes `reviewCMD` return, if any. An error whose text contains
"already exists" is dropped. -/
def initFailure (err : Option GoError) : Option GoError :=
  match err with
  | some err =>
    if !strings.Contains err.Error "already exists" then some err else none
  | none => none

/-- The body of `reviewCMD` from `dir := ctx.String("directory")` to the end of
`switch vcsTypeStr` (lines 100 to 220), without the debug logging around it:
either an early `return`, or the channels `(issuec, errorc)` that
`review.RequestReview` handed back together with the calls made so far. -/
def submitRequest (ctx : Context) (env : Env) :
    Except Result (Chan Issue × Chan GoError × List Call) :=
  let dir := ctx.String "directory"
  let c0 : List Call := chdirCalls dir
  match (if dir ≠ "" then env.Chdir dir else none) with
  | some err => .error ⟨"", errors.Trace (some err), c0⟩
  | none =>
  let c1 := c0 ++ [Call.ReadDotLingo]
  match env.ReadDotLingo ctx with
  | (_, some err) => .error ⟨"", errors.Trace (some err), c1⟩
  | (dotlingo, none) =>
  let c2 := c1 ++ [Call.New]
  match env.New with
  | (_, _, some err) => .error ⟨"", errors.Trace (some err), c2⟩
  | (vcsType, repo, none) =>
  let c3 := c2 ++ [Call.InitRepo]
  match initFailure (env.InitRepo vcsType repo) with
  | some err => .error ⟨"", errors.Trace (some err), c3⟩
  | none =>
  let c4 := c3 ++ [Call.SyncRepo]
  match env.SyncRepo vcsType repo with
  | some err => .error ⟨"", errors.Trace (some err), c4⟩
  | none =>
  let c5 := c4 ++ [Call.OwnerAndNameFromRemote]
  match repo.OwnerAndNameFromRemote with
  | (_, _, some err) => .error ⟨"", errors.Trace (some err), c5⟩
  | (owner, name, none) =>
  let c6 := c5 ++ [Call.CurrentCommitId]
  match repo.CurrentCommitId with
  | (_, some err) =>
    if noCommitErr err then .error ⟨"", some (errors.New noCommitErrMsg), c6⟩
    else .error ⟨"", errors.Trace (some err), c6⟩
  | (sha, none) =>
  let c7 := c6 ++ [Call.Patches]
  match repo.Patches with
  | (_, some err) => .error ⟨"", errors.Trace (some err), c7⟩
  | (patches, none) =>
  let c8 := c7 ++ [Call.WorkingDir]
  match repo.WorkingDir with
  | (_, some err) => .error ⟨"", errors.Trace (some err), c8⟩
  | (workingDir, none) =>
  let c9 := c8 ++ [Call.Platform]
  match env.Platform with
  | (_, some err) => .error ⟨"", errors.Trace (some err), c9⟩
  | (cfg, none) =>
  let c10 := c9 ++ [Call.TypeToString]
  match env.TypeToString vcsType with
  | (_, some err) => .error ⟨"", errors.Trace (some err), c10⟩
  | (vcsTypeStr, none) =>
  -- the `switch vcsTypeStr`
  if vcsTypeStr = vcsGit then
    let g1 := c10 ++ [Call.GitServerAddr]
    match cfg.GitServerAddr with
    | (_, some err) => .error ⟨"", errors.Trace (some err), g1⟩
    | (addr, none) =>
    let g2 := g1 ++ [Call.GitRemoteName]
    match cfg.GitRemoteName with
    | (_, some err) => .error ⟨"", errors.Trace (some err), g2⟩
    | (hostname, none) =>
    let req : ReviewRequest :=
      { Host := addr, Hostname := hostname, OwnerOrDepot := .Owner owner,
        Repo := name, Sha := sha, Patches := patches, Vcs := vcsTypeStr,
        Dir := workingDir, Dotlingo := dotlingo }
    let g3 := g2 ++ [Call.RequestReview req]
    match env.RequestReview req with
    | (_, _, some err) => .error ⟨"", errors.Trace (some err), g3⟩
    | (issuec, errorc, none) => .ok (issuec, errorc, g3)
  else if vcsTypeStr = vcsP4 then
    let p1 := c10 ++ [Call.P4ServerAddr]
    match cfg.P4ServerAddr with
    | (_, some err) => .error ⟨"", errors.Trace (some err), p1⟩
    | (addr, none) =>
    let p2 := p1 ++ [Call.P4RemoteName]
    match cfg.P4RemoteName with
    | (_, some err) => .error ⟨"", errors.Trace (some err), p2⟩
    | (hostname, none) =>
    let p3 := p2 ++ [Call.P4RemoteDepotName]
    match cfg.P4RemoteDepotName with
    | (_, some err) => .error ⟨"", errors.Trace (some err), p3⟩
    | (depot, none) =>
    let name := owner ++ "/" ++ name
    let req : ReviewRequest :=
      { Host := addr, Hostname := hostname, OwnerOrDepot := .Depot depot,
        Repo := name, Sha := sha, Patches := patches, Vcs := vcsTypeStr,
        Dir := workingDir, Dotlingo := dotlingo }
    let p4 := p3 ++ [Call.RequestReview req]
    match env.RequestReview req with
    | (_, _, some err) => .error ⟨"", errors.Trace (some err), p4⟩
    | (issuec, errorc, none) => .ok (issuec, errorc, p4)
  else .error ⟨"", some (errors.New "invalid VCS found."), c10⟩

/-- The body of `reviewCMD` from `dir := ctx.String("directory")` to the last
`return` (lines 100 to 232), without the debug logging around it. -/
def reviewSteps (ctx : Context) (env : Env) : Result :=
  match submitRequest ctx env with
  | .error r => r
  | .ok (issuec, errorc, c11) =>
  let c12 := c11 ++ [Call.ConfirmIssues (!ctx.Bool "interactive") (ctx.String "output")]
  match env.ConfirmIssues issuec errorc (!ctx.Bool "interactive") (ctx.String "output") with
  | (_, some err) => ⟨"", errors.Trace (some err), c12⟩
  | (issues, none) =>
  if issues.length = 0 then ⟨"Done! No issues found.\n", none, c12⟩
  else
  let c13 := c12 ++ [Call.MakeReport issues (ctx.String "format") (ctx.String "output")]
  match env.MakeReport issues (ctx.String "format") (ctx.String "output") with
  | (msg, err) => ⟨msg, errors.Trace err, c13⟩

/-- The function `reviewCMD`: with the `debug` flag set it logs
"reviewCMD called" first and, by its `defer`, syncs the logger on every return. -/
def reviewCMD (ctx : Context) (env : Env) : Result :=
  if ctx.IsSet "debug" then
    let r := reviewSteps ctx env
    { r with calls := [Call.Debugw "reviewCMD called"] ++ r.calls ++ [Call.LoggerSync] }
  else reviewSteps ctx env

/-- The calls made by the end of `switch vcsTypeStr`, on either way out. -/
def requestCalls : Except Result (Chan Issue × Chan GoError × List Call) → List Call
  | .error r => r.calls
  | .ok (_, _, cs) => cs

/-- The calls of lines 222 to 232: `review.ConfirmIssues` and `review.MakeReport`. -/
def Call.afterRequest : Call → Bool
  | .ConfirmIssues _ _ => true
  | .MakeReport _ _ _ => true
  | _ => false

/-- The review requests submitted during a run, in order. -/
def submitted : List Call → List ReviewRequest
  | [] => []
  | Call.RequestReview req :: cs => req :: submitted cs
  | _ :: cs => submitted cs

/-! ## Conditions on the collaborators -/

/-- Lines 100 to 114 pass: the change of directory (when one is asked for),
`review.ReadDotLingo` and `vcs.New` return no error. -/
def Prepared (ctx : Context) (env : Env) (dotlingo : String) (vcsType : VcsType)
    (repo : Repo) : Prop :=
  (ctx.String "directory" ≠ "" → env.Chdir (ctx.String "directory") = none) ∧
  env.ReadDotLingo ctx = (dotlingo, none) ∧
  env.New = (vcsType, repo, none)

/-- Lines 115 to 121 pass: `vcs.InitRepo` returns no error, or one whose text
contains "already exists". -/
def InitPassed (env : Env) (vcsType : VcsType) (repo : Repo) : Prop :=
  ∀ e, env.InitRepo vcsType repo = some e →
    strings.Contains e.Error "already exists" = true

/-- Lines 100 to 131 pass: setup, `vcs.InitRepo`, `vcs.SyncRepo` and the
owner/name read. -/
def Synced (ctx : Context) (env : Env) (dotlingo : String) (vcsType : VcsType)
    (repo : Repo) (owner name : String) : Prop :=
  Prepared ctx env dotlingo vcsType repo ∧
  InitPassed env vcsType repo ∧
  env.SyncRepo vcsType repo = none ∧
  repo.OwnerAndNameFromRemote = (owner, name, none)

/-- The repository reads of lines 133 to 150 pass. -/
def Inspected (repo : Repo) (sha : String) (patches : List String)
    (workingDir : String) : Prop :=
  repo.CurrentCommitId = (sha, none) ∧
  repo.Patches = (patches, none) ∧
  repo.WorkingDir = (workingDir, none)

/-- Lines 152 to 159 pass: `config.Platform` and `vcs.TypeToString` return no
error. -/
def Configured (env : Env) (vcsType : VcsType) (cfg : PlatformConfig)
    (vcsTypeStr : String) : Prop :=
  env.Platform = (cfg, none) ∧
  env.TypeToString vcsType = (vcsTypeStr, none)

/-! ## Sample collaborators -/

/-- A context with no flag set. -/
def ctx0 : Context where
  IsSet := fun _ => false
  String := fun _ => ""
  Bool := fun _ => false

/-- A platform configuration in which every lookup succeeds. -/
def cfg0 : PlatformConfig where
  GitServerAddr := ("git.example:22", none)
  GitRemoteName := ("origin", none)
  P4ServerAddr := ("p4.example:1666", none)
  P4RemoteName := ("p4host", none)
  P4RemoteDepotName := ("maindepot", none)

/-- The mock repository with a remote `owner/name`. -/
def repo0 (owner name : String) : Repo :=
  { mock.Repo with OwnerAndNameFromRemote := (owner, name, none) }

/-- Collaborators that all succeed, over the mock repository, with VCS kind
`kind` and `issues` confirmed. -/
def env0 (kind : String) (issues : List Issue) : Env where
  Chdir := fun _ => none
  ReadDotLingo := fun _ => ("tenets", none)
  New := (⟨0⟩, repo0 "acme" "widgets", none)
  InitRepo := fun _ _ => none
  SyncRepo := fun _ _ => none
  Platform := (cfg0, none)
  TypeToString := fun _ => (kind, none)
  RequestReview := fun _ => (⟨issues⟩, ⟨[]⟩, none)
  ConfirmIssues := fun issuec _ _ _ => (issuec.items, none)
  MakeReport := fun issues _ _ => (String.intercalate "," (issues.map Issue.name), none)


/-- The collaborators `env0 "git" []` with `vcs.InitRepo` returning `err`. -/
def envInit (err : Option GoError) : Env :=
  { env0 "git" [] with InitRepo := fun _ _ => err }

/-- The collaborators `env0 "git" []` with `vcs.SyncRepo` returning `err`. -/
def envSync (err : Option GoError) : Env :=
  { env0 "git" [] with SyncRepo := fun _ _ => err }

/-- The repository `repo0 "acme" "widgets"` with `CurrentCommitId` returning
the error `err`. -/
def repoCommitErr (err : GoError) : Repo :=
  { repo0 "acme" "widgets" with CurrentCommitId := ("", some err) }

/-- The collaborators `env0 "git" []` over the repository `repoCommitErr err`. -/
def envCommit (err : GoError) : Env :=
  { env0 "git" [] with New := (⟨0⟩, repoCommitErr err, none) }

/-- The collaborators `env0 kind issues` with `review.ConfirmIssues` returning `res`. -/
def envConfirm (kind : String) (issues : List Issue) (res : List Issue × Option GoError) : Env :=
  { env0 kind issues with ConfirmIssues := fun _ _ _ _ => res }

end lingo

namespace lingo

/-! ## Auxiliary lemmas -/

theorem reviewCMD_msg (ctx : Context) (env : Env) :
    (reviewCMD ctx env).msg = (reviewSteps ctx env).msg := by
  unfold reviewCMD
  split <;> rfl

theorem reviewCMD_err (ctx : Context) (env : Env) :
    (reviewCMD ctx env).err = (reviewSteps ctx env).err := by
  unfold reviewCMD
  split <;> rfl

theorem mem_reviewCMD_calls (ctx : Context) (env : Env) (c : Call) :
    c ∈ (reviewCMD ctx env).calls ↔
      c ∈ (reviewSteps ctx env).calls ∨
        (ctx.IsSet "debug" = true ∧ (c = Call.Debugw "reviewCMD called" ∨ c = Call.LoggerSync)) := by
  unfold reviewCMD
  by_cases h : ctx.IsSet "debug" = true
  · simp [h]
    tauto
  · simp [h]

theorem submitted_append (xs ys : List Call) :
    submitted (xs ++ ys) = submitted xs ++ submitted ys := by
  induction xs with
  | nil => simp [submitted]
  | cons c cs ih => cases c <;> simp [submitted, ih]

theorem submitted_reviewCMD (ctx : Context) (env : Env) :
    submitted (reviewCMD ctx env).calls = submitted (reviewSteps ctx env).calls := by
  unfold reviewCMD
  by_cases h : ctx.IsSet "debug" = true
  · simp [h, submitted_append, submitted]
  · simp [h]

theorem chdir_passes {ctx : Context} {env : Env}
    (h : ctx.String "directory" ≠ "" → env.Chdir (ctx.String "directory") = none) :
    (if ctx.String "directory" ≠ "" then env.Chdir (ctx.String "directory") else none) = none := by
  by_cases hd : ctx.String "directory" = ""
  · simp [hd]
  · simp [hd, h hd]

theorem init_passes {env : Env} {vcsType : VcsType} {repo : Repo}
    (h : InitPassed env vcsType repo) :
    initFailure (env.InitRepo vcsType repo) = none := by
  cases hi : env.InitRepo vcsType repo with
  | none => rfl
  | some e => simp [initFailure, h e hi]

theorem requestCalls_subset (ctx : Context) (env : Env) (c : Call)
    (h : c ∈ requestCalls (submitRequest ctx env)) : c ∈ (reviewSteps ctx env).calls := by
  unfold reviewSteps
  cases hs : submitRequest ctx env with
  | error r => simpa [hs, requestCalls] using h
  | ok v =>
    obtain ⟨issuec, errorc, cs⟩ := v
    have hc : c ∈ cs := by simpa [hs, requestCalls] using h
    simp only
    repeat' split
    all_goals simp [hc]

theorem mem_chdir_calls (d : String) (c : Call) :
    c ∈ chdirCalls d ↔ d ≠ "" ∧ c = Call.Chdir d := by
  by_cases hd : d = "" <;> simp [chdirCalls, hd]

theorem submitted_chdir_calls (d : String) : submitted (chdirCalls d) = [] := by
  by_cases hd : d = "" <;> simp [chdirCalls, hd, submitted]

theorem all_early_chdir_calls (d : String) :
    (chdirCalls d).all (fun c => !c.afterRequest) = true := by
  by_cases hd : d = "" <;> simp [chdirCalls, hd, Call.afterRequest]

theorem noCommitErrMsg_not_noCommitErr : noCommitErr (GoError.mk noCommitErrMsg) = false := by
  decide

theorem env0_prepared (kind : String) (issues : List Issue) :
    Prepared ctx0 (env0 kind issues) "tenets" ⟨0⟩ (repo0 "acme" "widgets") :=
  ⟨fun _ => rfl, rfl, rfl⟩

theorem env0_initPassed (kind : String) (issues : List Issue) :
    InitPassed (env0 kind issues) ⟨0⟩ (repo0 "acme" "widgets") := by
  intro e h
  simp [env0] at h

theorem env0_synced (kind : String) (issues : List Issue) :
    Synced ctx0 (env0 kind issues) "tenets" ⟨0⟩ (repo0 "acme" "widgets") "acme" "widgets" :=
  ⟨env0_prepared kind issues, env0_initPassed kind issues, rfl, rfl⟩

theorem repo0_inspected (owner name : String) : Inspected (repo0 owner name) "" [] "" :=
  ⟨rfl, rfl, rfl⟩

theorem env0_configured (kind : String) (issues : List Issue) (vcsType : VcsType) :
    Configured (env0 kind issues) vcsType cfg0 kind :=
  ⟨rfl, rfl⟩

theorem submitted_reviewSteps (ctx : Context) (env : Env) :
    submitted (reviewSteps ctx env).calls = submitted (requestCalls (submitRequest ctx env)) := by
  unfold reviewSteps
  cases hs : submitRequest ctx env with
  | error r => simp [requestCalls]
  | ok v =>
    obtain ⟨issuec, errorc, cs⟩ := v
    simp only [requestCalls]
    repeat' split
    all_goals simp [submitted_append, submitted]

theorem requestCalls_all_early (ctx : Context) (env : Env) :
    (requestCalls (submitRequest ctx env)).all (fun c => !c.afterRequest) = true := by
  simp only [submitRequest]
  repeat' split
  all_goals simp only [requestCalls, List.all_append, all_early_chdir_calls]
  all_goals simp [Call.afterRequest]

theorem requestCalls_before_confirm (ctx : Context) (env : Env) (c : Call)
    (h : c ∈ requestCalls (submitRequest ctx env)) :
    (∀ a o, c ≠ Call.ConfirmIssues a o) ∧ (∀ is f o, c ≠ Call.MakeReport is f o) := by
  have hall := requestCalls_all_early ctx env
  rw [List.all_eq_true] at hall
  have hc := hall c h
  constructor
  · rintro a o rfl
    simp [Call.afterRequest] at hc
  · rintro is f o rfl
    simp [Call.afterRequest] at hc

theorem submitted_request_spec (ctx : Context) (env : Env) (req : ReviewRequest) :
    req ∈ submitted (requestCalls (submitRequest ctx env)) →
    ((env.ReadDotLingo ctx).2 = none ∧ env.New.2.2 = none ∧
      env.New.2.1.OwnerAndNameFromRemote.2.2 = none ∧ env.New.2.1.CurrentCommitId.2 = none ∧
      env.New.2.1.Patches.2 = none ∧ env.New.2.1.WorkingDir.2 = none) ∧
    req.Sha = env.New.2.1.CurrentCommitId.1 ∧
    req.Patches = env.New.2.1.Patches.1 ∧
    req.Dir = env.New.2.1.WorkingDir.1 ∧
    req.Dotlingo = (env.ReadDotLingo ctx).1 ∧
    ((req.Vcs = "git" ∧
        req.OwnerOrDepot = OwnerOrDepot.Owner env.New.2.1.OwnerAndNameFromRemote.1 ∧
        req.Repo = env.New.2.1.OwnerAndNameFromRemote.2.1) ∨
      (req.Vcs = "perforce" ∧
        req.OwnerOrDepot = OwnerOrDepot.Depot env.Platform.1.P4RemoteDepotName.1 ∧
        req.Repo = env.New.2.1.OwnerAndNameFromRemote.1 ++ "/" ++
          env.New.2.1.OwnerAndNameFromRemote.2.1)) := by
  simp only [submitRequest]
  repeat' split
  all_goals simp only [requestCalls, submitted_append, submitted_chdir_calls]
  all_goals simp only [submitted, List.nil_append, List.not_mem_nil, false_implies]
  all_goals simp only [List.mem_singleton]
  all_goals rintro rfl
  all_goals simp_all [vcsGit, vcsP4]

/-- C1: an error of `vcs.InitRepo` whose text contains "already exists" is
swallowed. The whole run (message, error and calls made) is the same as the
run in which `vcs.InitRepo` returned no error, all other collaborators being
the same; and when the steps before it pass, the run goes on to call
`vcs.SyncRepo`. -/
theorem initRepo_already_exists_absorbed (ctx : Context) (env : Env) (e : GoError)
    (h : strings.Contains e.Error "already exists" = true) :
    reviewCMD ctx { env with InitRepo := fun _ _ => some e } =
      reviewCMD ctx { env with InitRepo := fun _ _ => none } ∧
    ∀ dotlingo vcsType repo, Prepared ctx env dotlingo vcsType repo →
      Call.SyncRepo ∈ (reviewCMD ctx { env with InitRepo := fun _ _ => some e }).calls := by
  constructor
  · simp [reviewCMD, reviewSteps, submitRequest, initFailure, h]
  · intro dotlingo vcsType repo hp
    obtain ⟨hcd, hdl, hnew⟩ := hp
    rw [mem_reviewCMD_calls]
    left
    apply requestCalls_subset
    simp only [submitRequest, initFailure, chdir_passes hcd, hdl, hnew, h, Bool.not_true,
      Bool.false_eq_true, if_false]
    repeat' split
    all_goals simp [requestCalls]

/-- C1 at a concrete input: the error "already exists" (the one the mock
repository's `CreateRemote` returns) from `vcs.InitRepo`, over collaborators
that all succeed. -/
theorem initRepo_already_exists_absorbed_witness :
    strings.Contains (errors.New "already exists").Error "already exists" = true ∧
    (reviewCMD ctx0 { env0 "git" [] with InitRepo := fun _ _ => some (errors.New "already exists") } =
        reviewCMD ctx0 { env0 "git" [] with InitRepo := fun _ _ => none } ∧
      ∀ dotlingo vcsType repo, Prepared ctx0 (env0 "git" []) dotlingo vcsType repo →
        Call.SyncRepo ∈ (reviewCMD ctx0
          { env0 "git" [] with InitRepo := fun _ _ => some (errors.New "already exists") }).calls) :=
  ⟨by decide, initRepo_already_exists_absorbed ctx0 (env0 "git" []) (errors.New "already exists")
    (by decide)⟩

/-- C2 fails as stated: `vcs.InitRepo` returns a permission failure whose text
is not the already-exists error but contains the words "already exists"; the
run does not fail: it returns no error, calls `vcs.SyncRepo` and submits a
review request. -/
theorem initRepo_similar_text_absorbed :
    (GoError.mk "permission denied: .git/config.lock already exists").Error ≠ "already exists" ∧
    (reviewCMD ctx0
      (envInit (some (GoError.mk "permission denied: .git/config.lock already exists")))).err
        = none ∧
    Call.SyncRepo ∈ (reviewCMD ctx0
      (envInit (some (GoError.mk "permission denied: .git/config.lock already exists")))).calls ∧
    submitted (reviewCMD ctx0
      (envInit (some (GoError.mk "permission denied: .git/config.lock already exists")))).calls
        ≠ [] := by
  decide

/-- C2 as amended: when the steps before it pass and `vcs.InitRepo` returns an
error whose text does not contain "already exists", `reviewCMD` returns an
empty message and that error (traced, so not nil), does not call
`vcs.SyncRepo` and submits no review request. -/
theorem initRepo_other_error_fatal (ctx : Context) (env : Env) (dotlingo : String)
    (vcsType : VcsType) (repo : Repo) (e : GoError)
    (hp : Prepared ctx env dotlingo vcsType repo)
    (hi : env.InitRepo vcsType repo = some e)
    (he : strings.Contains e.Error "already exists" = false) :
    (reviewCMD ctx env).msg = "" ∧
    (reviewCMD ctx env).err = some (GoError.traced e) ∧
    (reviewCMD ctx env).err ≠ none ∧
    Call.SyncRepo ∉ (reviewCMD ctx env).calls ∧
    submitted (reviewCMD ctx env).calls = [] := by
  obtain ⟨hcd, hdl, hnew⟩ := hp
  simp [reviewCMD_msg, reviewCMD_err, mem_reviewCMD_calls, submitted_reviewCMD, reviewSteps,
    submitRequest, initFailure, chdir_passes hcd, hdl, hnew, hi, he, errors.Trace, submitted_append,
    submitted_chdir_calls, mem_chdir_calls, submitted]

/-- C2 as amended at a concrete input: `vcs.InitRepo` returns
"permission denied". -/
theorem initRepo_other_error_fatal_witness :
    Prepared ctx0 (envInit (some (GoError.mk "permission denied"))) "tenets" ⟨0⟩
      (repo0 "acme" "widgets") ∧
    strings.Contains (GoError.mk "permission denied").Error "already exists" = false ∧
    (reviewCMD ctx0 (envInit (some (GoError.mk "permission denied")))).err =
      some (GoError.traced (GoError.mk "permission denied")) :=
  ⟨⟨fun _ => rfl, rfl, rfl⟩, by decide,
    (initRepo_other_error_fatal ctx0 (envInit (some (GoError.mk "permission denied"))) "tenets"
      ⟨0⟩ (repo0 "acme" "widgets") (GoError.mk "permission denied") ⟨fun _ => rfl, rfl, rfl⟩ rfl
      (by decide)).2.1⟩

/-- C8: when the steps before it pass (an "already exists" error of
`vcs.InitRepo` counting as a pass) and `vcs.SyncRepo` returns an error `e`,
`reviewCMD` returns an empty message and the traced error `e`, whose text is
the text of `e`; the owner/name read, the commit-id read, request submission,
confirmation and report are not performed. -/
theorem syncRepo_error_fatal (ctx : Context) (env : Env) (dotlingo : String)
    (vcsType : VcsType) (repo : Repo) (e : GoError)
    (hp : Prepared ctx env dotlingo vcsType repo)
    (hi : InitPassed env vcsType repo)
    (hs : env.SyncRepo vcsType repo = some e) :
    (reviewCMD ctx env).msg = "" ∧
    (∃ err, (reviewCMD ctx env).err = some err ∧ err = GoError.traced e ∧
      err.Error = e.Error) ∧
    Call.OwnerAndNameFromRemote ∉ (reviewCMD ctx env).calls ∧
    Call.CurrentCommitId ∉ (reviewCMD ctx env).calls ∧
    submitted (reviewCMD ctx env).calls = [] ∧
    (∀ a o, Call.ConfirmIssues a o ∉ (reviewCMD ctx env).calls) ∧
    (∀ is f o, Call.MakeReport is f o ∉ (reviewCMD ctx env).calls) := by
  obtain ⟨hcd, hdl, hnew⟩ := hp
  simp [reviewCMD_msg, reviewCMD_err, mem_reviewCMD_calls, submitted_reviewCMD, reviewSteps,
    submitRequest, chdir_passes hcd, hdl, hnew, init_passes hi, hs, errors.Trace,
    submitted_append, submitted_chdir_calls, mem_chdir_calls, submitted, GoError.Error]

/-- C8 at a concrete input: `vcs.SyncRepo` returns "network unreachable". -/
theorem syncRepo_error_fatal_witness :
    Prepared ctx0 (envSync (some (GoError.mk "network unreachable"))) "tenets" ⟨0⟩
      (repo0 "acme" "widgets") ∧
    InitPassed (envSync (some (GoError.mk "network unreachable"))) ⟨0⟩ (repo0 "acme" "widgets") ∧
    (reviewCMD ctx0 (envSync (some (GoError.mk "network unreachable")))).msg = "" :=
  ⟨⟨fun _ => rfl, rfl, rfl⟩, env0_initPassed "git" [],
    (syncRepo_error_fatal ctx0 (envSync (some (GoError.mk "network unreachable"))) "tenets"
      ⟨0⟩ (repo0 "acme" "widgets") (GoError.mk "network unreachable") ⟨fun _ => rfl, rfl, rfl⟩
      (env0_initPassed "git" []) rfl).1⟩

/-- C9 fails as stated: `vcs.SyncRepo` returns the error "already exists"; the
run returns an empty message and that error, performs neither the owner/name
read nor the commit-id read, and differs from the run in which
`vcs.SyncRepo` succeeded (which returns no error). -/
theorem syncRepo_already_exists_not_absorbed :
    strings.Contains (errors.New "already exists").Error "already exists" = true ∧
    (reviewCMD ctx0 (envSync (some (errors.New "already exists")))).msg = "" ∧
    (reviewCMD ctx0 (envSync (some (errors.New "already exists")))).err =
      some (GoError.traced (errors.New "already exists")) ∧
    Call.OwnerAndNameFromRemote ∉
      (reviewCMD ctx0 (envSync (some (errors.New "already exists")))).calls ∧
    Call.CurrentCommitId ∉
      (reviewCMD ctx0 (envSync (some (errors.New "already exists")))).calls ∧
    (reviewCMD ctx0 (envSync none)).err = none ∧
    reviewCMD ctx0 (envSync (some (errors.New "already exists"))) ≠
      reviewCMD ctx0 (envSync none) := by
  decide

/-- C9 as amended: when the steps before it pass and `vcs.SyncRepo` returns an
error `e` whose text contains "already exists", `reviewCMD` treats it as
fatal, not as non-fatal: it returns an empty message and the traced error `e`
(not nil), whose text is the text of `e`, and does not continue to the
owner/name read or the commit-id read. -/
theorem syncRepo_already_exists_fatal (ctx : Context) (env : Env) (dotlingo : String)
    (vcsType : VcsType) (repo : Repo) (e : GoError)
    (hp : Prepared ctx env dotlingo vcsType repo)
    (hi : InitPassed env vcsType repo)
    (hs : env.SyncRepo vcsType repo = some e)
    (_he : strings.Contains e.Error "already exists" = true) :
    (reviewCMD ctx env).msg = "" ∧
    (reviewCMD ctx env).err = some (GoError.traced e) ∧
    (reviewCMD ctx env).err ≠ none ∧
    (GoError.traced e).Error = e.Error ∧
    Call.OwnerAndNameFromRemote ∉ (reviewCMD ctx env).calls ∧
    Call.CurrentCommitId ∉ (reviewCMD ctx env).calls := by
  obtain ⟨hcd, hdl, hnew⟩ := hp
  have herr : (reviewCMD ctx env).err = some (GoError.traced e) := by
    simp [reviewCMD_err, reviewSteps, submitRequest, chdir_passes hcd, hdl, hnew,
      init_passes hi, hs, errors.Trace]
  refine ⟨?_, herr, ?_, rfl, ?_, ?_⟩
  · simp [reviewCMD_msg, reviewSteps, submitRequest, chdir_passes hcd, hdl, hnew,
      init_passes hi, hs]
  · rw [herr]
    exact Option.noConfusion
  · simp [mem_reviewCMD_calls, reviewSteps, submitRequest, chdir_passes hcd, hdl, hnew,
      init_passes hi, hs, mem_chdir_calls]
  · simp [mem_reviewCMD_calls, reviewSteps, submitRequest, chdir_passes hcd, hdl, hnew,
      init_passes hi, hs, mem_chdir_calls]

/-- C9 as amended at a concrete input: `vcs.SyncRepo` returns
"already exists". -/
theorem syncRepo_already_exists_fatal_witness :
    Prepared ctx0 (envSync (some (errors.New "already exists"))) "tenets" ⟨0⟩
      (repo0 "acme" "widgets") ∧
    InitPassed (envSync (some (errors.New "already exists"))) ⟨0⟩ (repo0 "acme" "widgets") ∧
    strings.Contains (errors.New "already exists").Error "already exists" = true ∧
    (reviewCMD ctx0 (envSync (some (errors.New "already exists")))).err =
      some (GoError.traced (errors.New "already exists")) :=
  ⟨⟨fun _ => rfl, rfl, rfl⟩, env0_initPassed "git" [], by decide,
    (syncRepo_already_exists_fatal ctx0 (envSync (some (errors.New "already exists"))) "tenets"
      ⟨0⟩ (repo0 "acme" "widgets") (errors.New "already exists") ⟨fun _ => rfl, rfl, rfl⟩
      (env0_initPassed "git" []) rfl (by decide)).2.1⟩

/-- C3: when setup, `vcs.InitRepo`, `vcs.SyncRepo` and the owner/name read pass
and `CurrentCommitId` returns an error `e`, `reviewCMD` returns an empty
message; if `noCommitErr e` the error is `errors.New(noCommitErrMsg)`, whose
text is exactly `noCommitErrMsg` and is not the text of `e`; otherwise the
error is the traced `e`, whose text is the text of `e`. In both cases no
review request is submitted. -/
theorem currentCommitId_error (ctx : Context) (env : Env) (dotlingo : String)
    (vcsType : VcsType) (repo : Repo) (owner name sha : String) (e : GoError)
    (hs : Synced ctx env dotlingo vcsType repo owner name)
    (hc : repo.CurrentCommitId = (sha, some e)) :
    (reviewCMD ctx env).msg = "" ∧
    (noCommitErr e = true →
      (reviewCMD ctx env).err = some (errors.New noCommitErrMsg) ∧
      (errors.New noCommitErrMsg).Error = noCommitErrMsg ∧
      (errors.New noCommitErrMsg).Error ≠ e.Error) ∧
    (noCommitErr e = false →
      (reviewCMD ctx env).err = some (GoError.traced e) ∧
      (GoError.traced e).Error = e.Error) ∧
    submitted (reviewCMD ctx env).calls = [] := by
  obtain ⟨⟨hcd, hdl, hnew⟩, hi, hsy, hon⟩ := hs
  have hne : noCommitErr e = true → noCommitErrMsg ≠ e.Error := by
    intro ht heq
    have hf := noCommitErrMsg_not_noCommitErr
    simp only [noCommitErr, GoError.Error] at hf ht
    rw [heq, ht] at hf
    exact Bool.noConfusion hf
  by_cases hn : noCommitErr e = true
  · simp [reviewCMD_msg, reviewCMD_err, submitted_reviewCMD, reviewSteps,
      submitRequest, chdir_passes hcd, hdl, hnew, init_passes hi, hsy, hon, hc, hn,
      submitted_append, submitted_chdir_calls, submitted, GoError.Error, errors.New, hne hn]
  · simp [reviewCMD_msg, reviewCMD_err, submitted_reviewCMD, reviewSteps,
      submitRequest, chdir_passes hcd, hdl, hnew, init_passes hi, hsy, hon, hc, hn,
      submitted_append, submitted_chdir_calls, submitted, GoError.Error, errors.Trace]

/-- C3 at a concrete input: `CurrentCommitId` returns git's
"ambiguous argument 'HEAD'" error. -/
theorem currentCommitId_error_witness :
    Synced ctx0 (envCommit (GoError.mk "fatal: ambiguous argument 'HEAD': unknown revision"))
      "tenets" ⟨0⟩
      (repoCommitErr (GoError.mk "fatal: ambiguous argument 'HEAD': unknown revision"))
      "acme" "widgets" ∧
    noCommitErr (GoError.mk "fatal: ambiguous argument 'HEAD': unknown revision") = true ∧
    (reviewCMD ctx0
      (envCommit (GoError.mk "fatal: ambiguous argument 'HEAD': unknown revision"))).err =
        some (errors.New noCommitErrMsg) :=
  ⟨⟨⟨fun _ => rfl, rfl, rfl⟩, env0_initPassed "git" [], rfl, rfl⟩, by decide,
    ((currentCommitId_error ctx0
      (envCommit (GoError.mk "fatal: ambiguous argument 'HEAD': unknown revision")) "tenets" ⟨0⟩
      (repoCommitErr (GoError.mk "fatal: ambiguous argument 'HEAD': unknown revision"))
      "acme" "widgets" "" (GoError.mk "fatal: ambiguous argument 'HEAD': unknown revision")
      ⟨⟨fun _ => rfl, rfl, rfl⟩, env0_initPassed "git" [], rfl, rfl⟩ rfl).2.1 (by decide)).1⟩

/-- C4: in a perforce run in which every lifecycle and configuration step
passes, exactly one review request is submitted; its `Repo` field is
`owner + "/" + name`, its `OwnerOrDepot` field is the `Depot` variant holding
the configured depot name and not the `Owner` variant, and with owner "acme"
and name "widgets" the `Repo` field is "acme/widgets". -/
theorem perforce_request (ctx : Context) (env : Env) (dotlingo : String)
    (vcsType : VcsType) (repo : Repo) (owner name sha : String) (patches : List String)
    (workingDir : String) (cfg : PlatformConfig) (addr hostname depot : String)
    (hs : Synced ctx env dotlingo vcsType repo owner name)
    (hin : Inspected repo sha patches workingDir)
    (hcf : Configured env vcsType cfg vcsP4)
    (ha : cfg.P4ServerAddr = (addr, none))
    (hh : cfg.P4RemoteName = (hostname, none))
    (hd : cfg.P4RemoteDepotName = (depot, none)) :
    submitted (reviewCMD ctx env).calls =
      [{ Host := addr, Hostname := hostname, OwnerOrDepot := OwnerOrDepot.Depot depot,
         Repo := owner ++ "/" ++ name, Sha := sha, Patches := patches, Vcs := vcsP4,
         Dir := workingDir, Dotlingo := dotlingo }] ∧
    (∀ req ∈ submitted (reviewCMD ctx env).calls,
      req.Repo = owner ++ "/" ++ name ∧
      req.OwnerOrDepot = OwnerOrDepot.Depot depot ∧
      req.OwnerOrDepot ≠ OwnerOrDepot.Owner owner ∧
      (owner = "acme" → name = "widgets" → req.Repo = "acme/widgets")) := by
  obtain ⟨⟨hcd, hdl, hnew⟩, hi, hsy, hon⟩ := hs
  obtain ⟨hsha, hpa, hwd⟩ := hin
  obtain ⟨hpl, hts⟩ := hcf
  have hsub : submitted (reviewCMD ctx env).calls =
      [{ Host := addr, Hostname := hostname, OwnerOrDepot := OwnerOrDepot.Depot depot,
         Repo := owner ++ "/" ++ name, Sha := sha, Patches := patches, Vcs := vcsP4,
         Dir := workingDir, Dotlingo := dotlingo }] := by
    rw [submitted_reviewCMD, submitted_reviewSteps]
    simp only [submitRequest, chdir_passes hcd, hdl, hnew, init_passes hi, hsy, hon, hsha, hpa,
      hwd, hpl, hts, ha, hh, hd]
    have hng : ¬ (vcsP4 = vcsGit) := by decide
    simp only [hng, if_false, if_true]
    split
    all_goals simp only [requestCalls, submitted_append, submitted_chdir_calls]
    all_goals simp only [submitted, List.nil_append]
  refine ⟨hsub, ?_⟩
  intro req hreq
  rw [hsub] at hreq
  simp only [List.mem_singleton] at hreq
  subst hreq
  refine ⟨rfl, rfl, by simp, ?_⟩
  rintro rfl rfl
  exact (by decide : ("acme" ++ "/" ++ "widgets" : String) = "acme/widgets")

/-- C4 at a concrete input: the repository `acme/widgets` with VCS kind
"perforce" and depot "maindepot". -/
theorem perforce_request_witness :
    Synced ctx0 (env0 "perforce" []) "tenets" ⟨0⟩ (repo0 "acme" "widgets") "acme" "widgets" ∧
    Inspected (repo0 "acme" "widgets") "" [] "" ∧
    Configured (env0 "perforce" []) ⟨0⟩ cfg0 vcsP4 ∧
    submitted (reviewCMD ctx0 (env0 "perforce" [])).calls =
      [{ Host := "p4.example:1666", Hostname := "p4host",
         OwnerOrDepot := OwnerOrDepot.Depot "maindepot",
         Repo := "acme" ++ "/" ++ "widgets", Sha := "", Patches := [], Vcs := "perforce",
         Dir := "", Dotlingo := "tenets" }] :=
  ⟨env0_synced "perforce" [], repo0_inspected "acme" "widgets", env0_configured "perforce" [] ⟨0⟩,
    (perforce_request ctx0 (env0 "perforce" []) "tenets" ⟨0⟩ (repo0 "acme" "widgets")
      "acme" "widgets" "" [] "" cfg0 "p4.example:1666" "p4host" "maindepot"
      (env0_synced "perforce" []) (repo0_inspected "acme" "widgets")
      (env0_configured "perforce" [] ⟨0⟩) rfl rfl rfl).1⟩

/-- C5: every review request submitted by `reviewCMD` has `Sha`, `Patches`,
`Dir` and `Dotlingo` equal to the values read (without error) from the
repository and from `review.ReadDotLingo`; and either its `Vcs` is "git", its
`OwnerOrDepot` is the `Owner` variant holding the repository's owner and its
`Repo` is the repository name, or its `Vcs` is "perforce", its `OwnerOrDepot`
is the `Depot` variant holding the configured depot name and its `Repo` is
`owner + "/" + name`. -/
theorem request_invariant (ctx : Context) (env : Env) (req : ReviewRequest)
    (hreq : req ∈ submitted (reviewCMD ctx env).calls) :
    ((env.ReadDotLingo ctx).2 = none ∧ env.New.2.2 = none ∧
      env.New.2.1.OwnerAndNameFromRemote.2.2 = none ∧ env.New.2.1.CurrentCommitId.2 = none ∧
      env.New.2.1.Patches.2 = none ∧ env.New.2.1.WorkingDir.2 = none) ∧
    req.Sha = env.New.2.1.CurrentCommitId.1 ∧
    req.Patches = env.New.2.1.Patches.1 ∧
    req.Dir = env.New.2.1.WorkingDir.1 ∧
    req.Dotlingo = (env.ReadDotLingo ctx).1 ∧
    ((req.Vcs = "git" ∧
        req.OwnerOrDepot = OwnerOrDepot.Owner env.New.2.1.OwnerAndNameFromRemote.1 ∧
        req.Repo = env.New.2.1.OwnerAndNameFromRemote.2.1) ∨
      (req.Vcs = "perforce" ∧
        req.OwnerOrDepot = OwnerOrDepot.Depot env.Platform.1.P4RemoteDepotName.1 ∧
        req.Repo = env.New.2.1.OwnerAndNameFromRemote.1 ++ "/" ++
          env.New.2.1.OwnerAndNameFromRemote.2.1)) := by
  rw [submitted_reviewCMD, submitted_reviewSteps] at hreq
  exact submitted_request_spec ctx env req hreq

/-- C5 at a concrete input: the request submitted for the git repository
`acme/widgets`. -/
theorem request_invariant_witness :
    ({ Host := "git.example:22", Hostname := "origin", OwnerOrDepot := OwnerOrDepot.Owner "acme",
       Repo := "widgets", Sha := "", Patches := [], Vcs := "git", Dir := "",
       Dotlingo := "tenets" } : ReviewRequest) ∈ submitted (reviewCMD ctx0 (env0 "git" [])).calls ∧
    (("git" = "git" ∧ OwnerOrDepot.Owner "acme" =
          OwnerOrDepot.Owner (env0 "git" []).New.2.1.OwnerAndNameFromRemote.1 ∧
        "widgets" = (env0 "git" []).New.2.1.OwnerAndNameFromRemote.2.1) ∨
      ("git" = "perforce" ∧
        OwnerOrDepot.Owner "acme" =
          OwnerOrDepot.Depot (env0 "git" []).Platform.1.P4RemoteDepotName.1 ∧
        "widgets" = (env0 "git" []).New.2.1.OwnerAndNameFromRemote.1 ++ "/" ++
          (env0 "git" []).New.2.1.OwnerAndNameFromRemote.2.1)) :=
  ⟨by decide,
    (request_invariant ctx0 (env0 "git" [])
      { Host := "git.example:22", Hostname := "origin", OwnerOrDepot := OwnerOrDepot.Owner "acme",
        Repo := "widgets", Sha := "", Patches := [], Vcs := "git", Dir := "",
        Dotlingo := "tenets" } (by decide)).2.2.2.2.2⟩

/-- C6: when every lifecycle and configuration step passes and the VCS kind
string is neither "git" nor "perforce", `reviewCMD` returns an empty message
and the error `errors.New("invalid VCS found.")`; no review request is
submitted, and neither `review.ConfirmIssues` nor `review.MakeReport` is
called. -/
theorem unsupported_vcs (ctx : Context) (env : Env) (dotlingo : String)
    (vcsType : VcsType) (repo : Repo) (owner name sha : String) (patches : List String)
    (workingDir : String) (cfg : PlatformConfig) (vcsTypeStr : String)
    (hs : Synced ctx env dotlingo vcsType repo owner name)
    (hin : Inspected repo sha patches workingDir)
    (hcf : Configured env vcsType cfg vcsTypeStr)
    (hg : vcsTypeStr ≠ "git")
    (hp4 : vcsTypeStr ≠ "perforce") :
    (reviewCMD ctx env).msg = "" ∧
    (reviewCMD ctx env).err = some (errors.New "invalid VCS found.") ∧
    (errors.New "invalid VCS found.").Error = "invalid VCS found." ∧
    submitted (reviewCMD ctx env).calls = [] ∧
    (∀ a o, Call.ConfirmIssues a o ∉ (reviewCMD ctx env).calls) ∧
    (∀ is f o, Call.MakeReport is f o ∉ (reviewCMD ctx env).calls) := by
  obtain ⟨⟨hcd, hdl, hnew⟩, hi, hsy, hon⟩ := hs
  obtain ⟨hsha, hpa, hwd⟩ := hin
  obtain ⟨hpl, hts⟩ := hcf
  have hg2 : ¬ (vcsTypeStr = vcsGit) := hg
  have hp2 : ¬ (vcsTypeStr = vcsP4) := hp4
  have hreq : submitRequest ctx env = .error ⟨"", some (errors.New "invalid VCS found."),
      chdirCalls (ctx.String "directory") ++ [Call.ReadDotLingo] ++ [Call.New] ++
        [Call.InitRepo] ++ [Call.SyncRepo] ++ [Call.OwnerAndNameFromRemote] ++
        [Call.CurrentCommitId] ++ [Call.Patches] ++ [Call.WorkingDir] ++ [Call.Platform] ++
        [Call.TypeToString]⟩ := by
    simp only [submitRequest, chdir_passes hcd, hdl, hnew, init_passes hi, hsy, hon, hsha, hpa,
      hwd, hpl, hts, hg2, hp2, if_false]
  have hsteps : reviewSteps ctx env = ⟨"", some (errors.New "invalid VCS found."),
      chdirCalls (ctx.String "directory") ++ [Call.ReadDotLingo] ++ [Call.New] ++
        [Call.InitRepo] ++ [Call.SyncRepo] ++ [Call.OwnerAndNameFromRemote] ++
        [Call.CurrentCommitId] ++ [Call.Patches] ++ [Call.WorkingDir] ++ [Call.Platform] ++
        [Call.TypeToString]⟩ := by
    simp only [reviewSteps, hreq]
  refine ⟨?_, ?_, rfl, ?_, ?_, ?_⟩
  · rw [reviewCMD_msg, hsteps]
  · rw [reviewCMD_err, hsteps]
  · rw [submitted_reviewCMD, hsteps]
    simp only [submitted_append, submitted_chdir_calls]
    simp only [submitted, List.nil_append]
  · intro a o
    simp [mem_reviewCMD_calls, hsteps, mem_chdir_calls]
  · intro is f o
    simp [mem_reviewCMD_calls, hsteps, mem_chdir_calls]

/-- C6 at a concrete input: the VCS kind string "svn". -/
theorem unsupported_vcs_witness :
    Synced ctx0 (env0 "svn" []) "tenets" ⟨0⟩ (repo0 "acme" "widgets") "acme" "widgets" ∧
    Inspected (repo0 "acme" "widgets") "" [] "" ∧
    Configured (env0 "svn" []) ⟨0⟩ cfg0 "svn" ∧
    "svn" ≠ "git" ∧ "svn" ≠ "perforce" ∧
    (reviewCMD ctx0 (env0 "svn" [])).err = some (errors.New "invalid VCS found.") :=
  ⟨env0_synced "svn" [], repo0_inspected "acme" "widgets", env0_configured "svn" [] ⟨0⟩,
    by decide, by decide,
    (unsupported_vcs ctx0 (env0 "svn" []) "tenets" ⟨0⟩ (repo0 "acme" "widgets")
      "acme" "widgets" "" [] "" cfg0 "svn" (env0_synced "svn" [])
      (repo0_inspected "acme" "widgets") (env0_configured "svn" [] ⟨0⟩)
      (by decide) (by decide)).2.1⟩

/-- C7 fails as stated: in a git run that submits its request and in which
`review.ConfirmIssues` returns no issue and no error, the run succeeds but its
message is not "Done! No issues found.": the code appends a newline. -/
theorem no_issues_message_has_newline :
    (submitted (reviewCMD ctx0 (env0 "git" [])).calls).length = 1 ∧
    (env0 "git" []).ConfirmIssues ⟨[]⟩ ⟨[]⟩ true "" = ([], none) ∧
    Call.ConfirmIssues true "" ∈ (reviewCMD ctx0 (env0 "git" [])).calls ∧
    (reviewCMD ctx0 (env0 "git" [])).err = none ∧
    (reviewCMD ctx0 (env0 "git" [])).msg ≠ "Done! No issues found." := by
  decide

/-- C7 as amended: when the request was submitted and `review.ConfirmIssues`
returns an empty list with no error, `reviewCMD` returns no error and the
message "Done! No issues found." followed by one newline character, and
`review.MakeReport` is not called. -/
theorem no_issues_message (ctx : Context) (env : Env) (issuec : Chan Issue)
    (errorc : Chan GoError) (cs : List Call)
    (hreq : submitRequest ctx env = .ok (issuec, errorc, cs))
    (hconf : env.ConfirmIssues issuec errorc (!ctx.Bool "interactive") (ctx.String "output") =
      ([], none)) :
    (reviewCMD ctx env).msg = "Done! No issues found.\n" ∧
    (reviewCMD ctx env).err = none ∧
    (∀ is f o, Call.MakeReport is f o ∉ (reviewCMD ctx env).calls) := by
  have hsteps : reviewSteps ctx env = ⟨"Done! No issues found.\n", none,
      cs ++ [Call.ConfirmIssues (!ctx.Bool "interactive") (ctx.String "output")]⟩ := by
    simp only [reviewSteps, hreq, hconf, List.length_nil, if_true]
  have hcs := requestCalls_before_confirm ctx env
  rw [hreq] at hcs
  refine ⟨?_, ?_, ?_⟩
  · rw [reviewCMD_msg, hsteps]
  · rw [reviewCMD_err, hsteps]
  · intro is f o hmem
    rw [mem_reviewCMD_calls, hsteps] at hmem
    rcases hmem with hmem | ⟨_, hmem | hmem⟩
    · rw [List.mem_append, List.mem_singleton] at hmem
      rcases hmem with hmem | hmem
      · exact (hcs _ hmem).2 is f o rfl
      · exact Call.noConfusion hmem
    · exact Call.noConfusion hmem
    · exact Call.noConfusion hmem

/-- C7 as amended at a concrete input: a git run with no issue found. -/
theorem no_issues_message_witness :
    submitRequest ctx0 (env0 "git" []) =
      .ok (⟨[]⟩, ⟨[]⟩, requestCalls (submitRequest ctx0 (env0 "git" []))) ∧
    (env0 "git" []).ConfirmIssues ⟨[]⟩ ⟨[]⟩ (!ctx0.Bool "interactive") (ctx0.String "output") =
      ([], none) ∧
    (reviewCMD ctx0 (env0 "git" [])).msg = "Done! No issues found.\n" :=
  ⟨rfl, rfl,
    (no_issues_message ctx0 (env0 "git" []) ⟨[]⟩ ⟨[]⟩
      (requestCalls (submitRequest ctx0 (env0 "git" []))) rfl rfl).1⟩

/-- C10: when the request was submitted and `review.ConfirmIssues` returns an
error `e`, together with any list of issues and for any content of the two
channels, `reviewCMD` returns an empty message and the traced error `e`
(not nil), whose text is the text of `e`, and `review.MakeReport` is not
called. -/
theorem confirmIssues_error_fatal (ctx : Context) (env : Env) (issuec : Chan Issue)
    (errorc : Chan GoError) (cs : List Call) (issues : List Issue) (e : GoError)
    (hreq : submitRequest ctx env = .ok (issuec, errorc, cs))
    (hconf : env.ConfirmIssues issuec errorc (!ctx.Bool "interactive") (ctx.String "output") =
      (issues, some e)) :
    (reviewCMD ctx env).msg = "" ∧
    (reviewCMD ctx env).err = some (GoError.traced e) ∧
    (reviewCMD ctx env).err ≠ none ∧
    (GoError.traced e).Error = e.Error ∧
    (∀ is f o, Call.MakeReport is f o ∉ (reviewCMD ctx env).calls) := by
  have hsteps : reviewSteps ctx env = ⟨"", some (GoError.traced e),
      cs ++ [Call.ConfirmIssues (!ctx.Bool "interactive") (ctx.String "output")]⟩ := by
    simp only [reviewSteps, hreq, hconf, errors.Trace]
  have hcs := requestCalls_before_confirm ctx env
  rw [hreq] at hcs
  refine ⟨?_, ?_, ?_, rfl, ?_⟩
  · rw [reviewCMD_msg, hsteps]
  · rw [reviewCMD_err, hsteps]
  · rw [reviewCMD_err, hsteps]
    exact Option.noConfusion
  · intro is f o hmem
    rw [mem_reviewCMD_calls, hsteps] at hmem
    rcases hmem with hmem | ⟨_, hmem | hmem⟩
    · rw [List.mem_append, List.mem_singleton] at hmem
      rcases hmem with hmem | hmem
      · exact (hcs _ hmem).2 is f o rfl
      · exact Call.noConfusion hmem
    · exact Call.noConfusion hmem
    · exact Call.noConfusion hmem

/-- C10 at a concrete input: the issue channel carries no issue and
`review.ConfirmIssues` returns the error "analysis backend failed". -/
theorem confirmIssues_error_fatal_witness :
    submitRequest ctx0 (envConfirm "git" [] ([], some (GoError.mk "analysis backend failed"))) =
      .ok (⟨[]⟩, ⟨[]⟩, requestCalls
        (submitRequest ctx0 (envConfirm "git" [] ([], some (GoError.mk "analysis backend failed"))))) ∧
    (envConfirm "git" [] ([], some (GoError.mk "analysis backend failed"))).ConfirmIssues ⟨[]⟩ ⟨[]⟩
        (!ctx0.Bool "interactive") (ctx0.String "output") =
      ([], some (GoError.mk "analysis backend failed")) ∧
    (reviewCMD ctx0 (envConfirm "git" [] ([], some (GoError.mk "analysis backend failed")))).err =
      some (GoError.traced (GoError.mk "analysis backend failed")) :=
  ⟨rfl, rfl,
    (confirmIssues_error_fatal ctx0
      (envConfirm "git" [] ([], some (GoError.mk "analysis backend failed"))) ⟨[]⟩ ⟨[]⟩
      (requestCalls
        (submitRequest ctx0 (envConfirm "git" [] ([], some (GoError.mk "analysis backend failed")))))
      [] (GoError.mk "analysis backend failed") rfl rfl).2.1⟩

end lingo
